import Mathlib

/-! canary-deployment: the HTTP demo service of `app/main.go`

A shallow embedding of `main.go`.  The process state a handler can touch is
threaded explicitly: the label-indexed request counter `httpRequestsTotal`,
the `http.ResponseWriter` of the request being served and the request struct
behind the pointer `r`.  A handler call may also fail to return (a panic); its
outcome records that.  What a handler only reads (environment, host name,
runtime description, clock) is collected in `Sys`.

Library calls are embedded by their documented behaviour:

* `os.Getenv` returns the empty string for a variable that is not present;
* `json.Encoder.Encode` writes the compact JSON text of the value followed by
  one newline character, object members of a struct in declaration order and
  those of a map sorted by key;
* the first `Write` on a `ResponseWriter` whose header has not been written
  sends status 200;
* a `mux` route built with `Handle(path, h).Methods(m)` matches a request
  exactly when the request path equals `path` and its method is one of `m`.

Go strings are byte strings; they are embedded as Lean strings, so values that
are not valid UTF-8 are outside the model.
-/

namespace CanaryDeployment

/-! ## Environment -/

/-- The process environment, as `os.LookupEnv` sees it: `none` for a variable
that is not present, `some v` for one set to `v` (possibly empty). -/
abbrev Env := String → Option String

/-- Go `os.Getenv`: the value, empty when the variable is not present. -/
def Getenv (env : Env) (key : String) : String :=
  (env key).getD ""

/-- Source `getEnvOrDefault` (main.go 107-112). -/
def getEnvOrDefault (env : Env) (key defaultValue : String) : String :=
  let value := Getenv env key
  if value ≠ "" then value else defaultValue

/-! ## Request counter -/

/-- Label values of one child of the counter vector, in the order of the label
names `method`, `path`, `status` (main.go 26). -/
abbrev Labels := String × String × String

/-- The counter vector `httpRequestsTotal`: the count of every label triple.
A triple never observed counts 0. -/
abbrev Counter := Labels → Nat

/-- The counter vector right after `prometheus.NewCounterVec`. -/
def Counter.zero : Counter := fun _ => 0

/-- The call `httpRequestsTotal.WithLabelValues(m, p, s).Inc()`. -/
def Counter.inc (c : Counter) (l : Labels) : Counter :=
  fun k => if k = l then c k + 1 else c k

/-! ## Requests, response writers, handlers -/

/-- The parts of `*http.Request` the program can observe. -/
structure Request where
  method : String
  path : String
  rawQuery : String
  header : List (String × String)

/-- An `http.ResponseWriter`: the header map, the status sent so far (`none`
while the header has not been written) and the body bytes written. -/
structure ResponseWriter where
  header : List (String × String)
  status : Option Nat
  body : String

/-- The writer the server hands to the handler of a new request. -/
def ResponseWriter.fresh : ResponseWriter :=
  { header := [], status := none, body := "" }

/-- The call `w.Header().Set(k, v)`. -/
def ResponseWriter.setHeader (w : ResponseWriter) (k v : String) : ResponseWriter :=
  { w with header := (k, v) :: w.header.filter (fun kv => kv.1 ≠ k) }

/-- The call `w.Write(s)`: a first write sends status 200. -/
def ResponseWriter.write (w : ResponseWriter) (s : String) : ResponseWriter :=
  { w with status := some (w.status.getD 200), body := w.body ++ s }

/-- Status code the client receives once the handler has returned: 200 when the
handler never wrote the header itself. -/
def ResponseWriter.statusCode (w : ResponseWriter) : Nat :=
  w.status.getD 200

/-- What a handler reads but cannot change. -/
structure Sys where
  /-- process environment -/
  env : Env
  /-- result of `os.Hostname()`, `none` when it returns an error -/
  hostname : Option String
  /-- value of `runtime.Version()` -/
  goVersion : String
  /-- value of `runtime.GOOS` -/
  goos : String
  /-- value of `runtime.GOARCH` -/
  goarch : String
  /-- value of `time.Since(startTime).String()` at the request -/
  uptime : String
  /-- text exposition written by `promhttp.Handler()` for a counter state -/
  exposition : Counter → String

/-- Mutable state a handler runs on: the global counter vector and the
response writer of the request. -/
structure Conn where
  counter : Counter
  w : ResponseWriter

/-- How a call `h(w, r)` ends: the counter and writer as the call left them,
the request struct behind the pointer `r` as the call left it (a handler may
assign to `r.Method` or `r.URL.Path`), and whether the call returned to its
caller.  `returned` is `false` for a call that panics, calls `runtime.Goexit`
or never comes back: the statements after the call are then not executed. -/
structure Outcome where
  conn : Conn
  req : Request
  returned : Bool

/-- Go `http.HandlerFunc`: called with the request and the state it runs on. -/
abbrev HandlerFunc := Sys → Request → Conn → Outcome

/-! ## JSON encoding -/

/-- Hexadecimal digit of a number below 16, lower case. -/
def hexDigit (n : Nat) : Char :=
  if n < 10 then Char.ofNat (48 + n) else Char.ofNat (87 + n)

/-- Escaped form of one character inside a JSON string, as written by
`encoding/json` with HTML escaping on (the default of `json.Encoder`);
backspace and form feed in the short form of Go 1.22 and later. -/
def jsonEscapeChar (c : Char) : String :=
  if c = '"' then "\\\""
  else if c = '\\' then "\\\\"
  else if c = '\n' then "\\n"
  else if c = '\r' then "\\r"
  else if c = '\t' then "\\t"
  else if c.toNat = 8 then "\\b"
  else if c.toNat = 12 then "\\f"
  else if c.toNat < 32 ∨ c = '<' ∨ c = '>' ∨ c = '&' then
    String.mk ['\\', 'u', '0', '0', hexDigit (c.toNat / 16), hexDigit (c.toNat % 16)]
  else if c.toNat = 0x2028 then "\\u2028"
  else if c.toNat = 0x2029 then "\\u2029"
  else String.mk [c]

/-- JSON text of a Go string. -/
def jsonQuote (s : String) : String :=
  "\"" ++ String.join (s.data.map jsonEscapeChar) ++ "\""

/-- Values the program encodes: a string, or a `map[string]string`. -/
inductive JVal where
  | str (s : String)
  | strMap (m : List (String × String))
  deriving DecidableEq

/-- A JSON object: its members in the order they are written. -/
abbrev JObj := List (String × JVal)

/-- Lexicographic order on strings by code point, the order of Go string
comparison on valid UTF-8. -/
def lexLt : List Char → List Char → Bool
  | [], [] => false
  | [], _ :: _ => true
  | _ :: _, [] => false
  | a :: as, b :: bs =>
      if a.toNat < b.toNat then true
      else if b.toNat < a.toNat then false
      else lexLt as bs

/-- Insert a map entry into a list sorted by key. -/
def insertByKey (kv : String × String) : List (String × String) → List (String × String)
  | [] => [kv]
  | x :: xs => if lexLt kv.1.data x.1.data then kv :: x :: xs else x :: insertByKey kv xs

/-- Entries of a Go map in the order `encoding/json` writes them: sorted by key. -/
def sortByKey : List (String × String) → List (String × String)
  | [] => []
  | x :: xs => insertByKey x (sortByKey xs)

/-- Members `k:v` joined by commas inside braces. -/
def renderMembers (ms : List String) : String :=
  "\x7b" ++ String.intercalate "," ms ++ "\x7d"

/-- Compact JSON text of a value. -/
def JVal.render : JVal → String
  | .str s => jsonQuote s
  | .strMap m =>
      renderMembers ((sortByKey m).map (fun kv => jsonQuote kv.1 ++ ":" ++ jsonQuote kv.2))

/-- Compact JSON text of an object. -/
def JObj.render (o : JObj) : String :=
  renderMembers (o.map (fun kv => jsonQuote kv.1 ++ ":" ++ kv.2.render))

/-- Value of a member of an object, by key. -/
def JObj.get (o : JObj) (k : String) : Option JVal :=
  (o.find? (fun kv => kv.1 = k)).map (fun kv => kv.2)

/-- The call `json.NewEncoder(w).Encode(v)` for a value whose JSON object is
`o`: the JSON text, then a newline. -/
def encodeTo (w : ResponseWriter) (o : JObj) : ResponseWriter :=
  w.write (o.render ++ "\n")

/-! ## Handlers (main.go 67-105) -/

/-- Source variable `version` (main.go 18). -/
def version : String := "1.1.1"

/-- Source `metricsMiddleware` (main.go 67-72): run `next`; once it has
returned, increment the child of the counter vector labelled with
`r.Method` and `r.URL.Path`, read through the pointer at that moment, and the
literal `"200"`.  When `next` does not return, line 70 is not reached. -/
def metricsMiddleware (next : HandlerFunc) : HandlerFunc :=
  fun sys r st =>
    let o := next sys r st
    if o.returned then
      { o with conn := { o.conn with
          counter := o.conn.counter.inc (o.req.method, o.req.path, "200") } }
    else o

/-- Source struct `Response` (main.go 34-43). -/
structure Response where
  Hostname : String
  Version : String
  Revision : String
  Color : String
  Message : String
  Runtime : String
  Uptime : String
  Env : List (String × String)

/-- JSON object of a `Response`, members named by the `json` tags of the
struct fields, in declaration order. -/
def Response.toJObj (p : Response) : JObj :=
  [ ("hostname", .str p.Hostname),
    ("version", .str p.Version),
    ("revision", .str p.Revision),
    ("color", .str p.Color),
    ("message", .str p.Message),
    ("runtime", .str p.Runtime),
    ("uptime", .str p.Uptime),
    ("env", .strMap p.Env) ]

/-- The value `resp` built by `homeHandler` (main.go 75-89). -/
def homeResponse (sys : Sys) : Response :=
  { Hostname := sys.hostname.getD ""
    Version := version
    Revision := Getenv sys.env "REVISION"
    Color := getEnvOrDefault sys.env "COLOR" "#34577c"
    Message := "Testing metrics-based canary deployment v1.1.1 with traffic"
    Runtime := sys.goVersion ++ " " ++ sys.goos ++ "/" ++ sys.goarch
    Uptime := sys.uptime
    Env := [ ("ENVIRONMENT", getEnvOrDefault sys.env "ENVIRONMENT" "unknown"),
             ("LOG_LEVEL", getEnvOrDefault sys.env "LOG_LEVEL" "info") ] }

/-- Source `homeHandler` (main.go 74-93). -/
def homeHandler : HandlerFunc :=
  fun sys r st =>
    { conn := { st with w := encodeTo (st.w.setHeader "Content-Type" "application/json")
                              (homeResponse sys).toJObj }
      req := r
      returned := true }

/-- JSON object of `HealthResponse{Status: s}` (main.go 45-47). -/
def healthJObj (s : String) : JObj := [("status", .str s)]

/-- Source `healthHandler` (main.go 95-98). -/
def healthHandler : HandlerFunc :=
  fun _ r st =>
    { conn := { st with w := encodeTo (st.w.setHeader "Content-Type" "application/json")
                              (healthJObj "ok") }
      req := r
      returned := true }

/-- Source `versionHandler` (main.go 100-105): encodes the one-entry map
`{"version": version}`. -/
def versionHandler : HandlerFunc :=
  fun _ r st =>
    { conn := { st with w := encodeTo (st.w.setHeader "Content-Type" "application/json")
                              [("version", .str version)] }
      req := r
      returned := true }

/-- The handler `promhttp.Handler()`: writes the text exposition of the
registered metrics and does not touch the request counter. -/
def promHandler : HandlerFunc :=
  fun sys r st =>
    { conn := { st with w := st.w.write (sys.exposition st.counter) }
      req := r
      returned := true }

/-! ## Router and server (main.go 49-65) -/

/-- One `mux` route: path template without variables, allowed methods, handler. -/
structure Route where
  path : String
  methods : List String
  handler : HandlerFunc

/-- The routes registered by `main`, in registration order (main.go 52-56). -/
def routes : List Route :=
  [ { path := "/metrics", methods := ["GET"], handler := promHandler },
    { path := "/", methods := ["GET"], handler := metricsMiddleware homeHandler },
    { path := "/healthz", methods := ["GET"], handler := healthHandler },
    { path := "/readyz", methods := ["GET"], handler := healthHandler },
    { path := "/version", methods := ["GET"], handler := metricsMiddleware versionHandler } ]

/-- Whether a route matches a request: exact path and one of the methods. -/
def Route.matches (rt : Route) (r : Request) : Bool :=
  decide (r.path = rt.path) && decide (r.method ∈ rt.methods)

/-- Routing of `mux.Router`: the first matching route, if any.  With `none`
the request is answered by the router itself (redirect, 404 or 405) and no
handler of the program runs. -/
def matchRoute (rs : List Route) (r : Request) : Option Route :=
  rs.find? (fun rt => rt.matches r)

/-- Handler the router of `main` dispatches a request to. -/
def dispatch (r : Request) : Option HandlerFunc :=
  (matchRoute routes r).map (fun rt => rt.handler)

/-- Serving one request: the counter afterwards, and the response written by
the program.  The response is `none` when the program completed none: the
router answered itself, or the handler call did not return and the server
dropped the connection. -/
def serve (sys : Sys) (c : Counter) (r : Request) : Counter × Option ResponseWriter :=
  match dispatch r with
  | some h =>
      let o := h sys r { counter := c, w := ResponseWriter.fresh }
      (o.conn.counter, if o.returned then some o.conn.w else none)
  | none => (c, none)

/-- Counter after serving a sequence of requests, one after the other, each
with the system view of its own time. -/
def serveAll (c : Counter) : List (Sys × Request) → Counter
  | [] => c
  | (sys, r) :: rest => serveAll (serve sys c r).1 rest

/-- Number of requests in a sequence with the given method and path. -/
def countRequests (m p : String) (reqs : List (Sys × Request)) : Nat :=
  (reqs.filter (fun sr => decide (sr.2.method = m) && decide (sr.2.path = p))).length

/-- The value of `port` after main.go 58-61. -/
def listenPort (env : Env) : String :=
  let port := Getenv env "PORT"
  if port = "" then "9898" else port

/-- The address passed to `http.ListenAndServe` (main.go 64). -/
def listenAddr (env : Env) : String :=
  ":" ++ listenPort env

/-! ## Spec wording used for comparison -/

/-- Spec wording "the value of the variable if it is set, else the default":
a variable set to the empty string counts as set. -/
def valueIfSetElse (env : Env) (key defaultValue : String) : String :=
  match env key with
  | some v => v
  | none => defaultValue

/-- The value of the variable if it is set to a non-empty string, and the
default value otherwise. -/
def valueIfNonEmptyElse (env : Env) (key defaultValue : String) : String :=
  match env key with
  | some v => if v = "" then defaultValue else v
  | none => defaultValue

/-- Spec wording of the router (spec 4.1): five fixed routes, chosen by exact
method and path.  The route table of `main` is compared with it. -/
def specHandlerFor (r : Request) : Option HandlerFunc :=
  if r.method = "GET" then
    if r.path = "/metrics" then some promHandler
    else if r.path = "/" then some (metricsMiddleware homeHandler)
    else if r.path = "/healthz" then some healthHandler
    else if r.path = "/readyz" then some healthHandler
    else if r.path = "/version" then some (metricsMiddleware versionHandler)
    else none
  else none

/-- Whether a request is one of the two the counting middleware sees. -/
def counted (r : Request) : Prop :=
  r.method = "GET" ∧ (r.path = "/" ∨ r.path = "/version")

instance (r : Request) : Decidable (counted r) := by
  unfold counted; infer_instance

/-! ## Reading the JSON written -/

/-- Value of the member `env.k` of an object: member `k` of the map held by
member `env`. -/
def JObj.getEnv (o : JObj) (k : String) : Option String :=
  match o.get "env" with
  | some (.strMap m) => (m.find? (fun kv => kv.1 = k)).map (fun kv => kv.2)
  | _ => none

/-- The text `"revision":R,"color":C` of two neighbouring members. -/
def revisionColorText (revision color : String) : String :=
  jsonQuote "revision" ++ ":" ++ jsonQuote revision ++ "," ++
    (jsonQuote "color" ++ ":" ++ jsonQuote color)

/-! ## Concrete inputs used in examples -/

/-- An environment given by a list of bindings. -/
def envOf (bs : List (String × String)) : Env :=
  fun k => (bs.find? (fun kv => kv.1 = k)).map (fun kv => kv.2)

/-- A system view with the given environment. -/
def sysOf (bs : List (String × String)) : Sys :=
  { env := envOf bs, hostname := some "pod-0", goVersion := "go1.22.0", goos := "linux",
    goarch := "amd64", uptime := "1m0s", exposition := fun _ => "" }

/-- A request with the given method and path, no query, no headers. -/
def req (m p : String) : Request :=
  { method := m, path := p, rawQuery := "", header := [] }

/-- A handler that panics at once: `func(w, r) { panic("boom") }`. -/
def panicHandler : HandlerFunc :=
  fun _ r st => { conn := st, req := r, returned := false }

/-- A handler that rewrites the request path and returns:
`func(w, r) { r.URL.Path = "/rewritten" }`. -/
def rewriteHandler : HandlerFunc :=
  fun _ r st => { conn := st, req := { r with path := "/rewritten" }, returned := true }

/-- A sequence of requests mixing routed and unrouted ones. -/
def sampleRequests : List (Sys × Request) :=
  [(sysOf [], req "POST" "/"), (sysOf [], req "GET" "/version"),
   (sysOf [], req "GET" "/nowhere"), (sysOf [], req "GET" "/healthz"),
   (sysOf [], req "GET" "/version")]

/-! ## Routing lemmas -/

theorem dispatch_eq_handlerFor (r : Request) : dispatch r = specHandlerFor r := by
  unfold dispatch matchRoute routes specHandlerFor
  simp only [List.find?, Route.matches, List.mem_singleton]
  by_cases hm : r.method = "GET"
  · by_cases h1 : r.path = "/metrics"
    · simp [hm, h1]
    · by_cases h2 : r.path = "/"
      · simp [hm, h2]
      · by_cases h3 : r.path = "/healthz"
        · simp [hm, h3]
        · by_cases h4 : r.path = "/readyz"
          · simp [hm, h4]
          · by_cases h5 : r.path = "/version"
            · simp [hm, h5]
            · simp [hm, h1, h2, h3, h4, h5]
  · simp [hm]

theorem serve_counter (sys : Sys) (c : Counter) (r : Request) :
    (serve sys c r).1 = if counted r then c.inc (r.method, r.path, "200") else c := by
  unfold serve counted
  rw [dispatch_eq_handlerFor]
  unfold specHandlerFor
  by_cases hm : r.method = "GET"
  · by_cases h1 : r.path = "/metrics"
    · simp [hm, h1, promHandler]
    · by_cases h2 : r.path = "/"
      · simp [hm, h2, metricsMiddleware, homeHandler]
      · by_cases h3 : r.path = "/healthz"
        · simp [hm, h3, healthHandler]
        · by_cases h4 : r.path = "/readyz"
          · simp [hm, h4, healthHandler]
          · by_cases h5 : r.path = "/version"
            · simp [hm, h5, metricsMiddleware, versionHandler]
            · simp [hm, h1, h2, h3, h4, h5]
  · simp [hm]

theorem Counter.le_inc (c : Counter) (l k : Labels) : c k ≤ c.inc l k := by
  unfold Counter.inc
  split <;> omega

theorem serve_counter_mono (sys : Sys) (c : Counter) (r : Request) (k : Labels) :
    c k ≤ (serve sys c r).1 k := by
  rw [serve_counter]
  split
  · exact Counter.le_inc c _ k
  · exact Nat.le_refl _

theorem serveAll_mono (reqs : List (Sys × Request)) (c : Counter) (k : Labels) :
    c k ≤ serveAll c reqs k := by
  induction reqs generalizing c with
  | nil => exact Nat.le_refl _
  | cons sr rest ih =>
      obtain ⟨sys, r⟩ := sr
      exact Nat.le_trans (serve_counter_mono sys c r k) (ih _)

theorem serveAll_append (pre post : List (Sys × Request)) (c : Counter) :
    serveAll c (pre ++ post) = serveAll (serveAll c pre) post := by
  induction pre generalizing c with
  | nil => rfl
  | cons sr rest ih =>
      obtain ⟨sys, r⟩ := sr
      exact ih _

/-- Serving a sequence adds to the count of `(m, p, "200")` the number of
counted requests with that method and path. -/
theorem serveAll_count (m p : String) (hc : ∀ r : Request, r.method = m → r.path = p → counted r)
    (reqs : List (Sys × Request)) (c : Counter) :
    c (m, p, "200") + countRequests m p reqs ≤ serveAll c reqs (m, p, "200") := by
  induction reqs generalizing c with
  | nil => simp [countRequests, serveAll]
  | cons sr rest ih =>
      obtain ⟨sys, r⟩ := sr
      have step := ih (serve sys c r).1
      show c (m, p, "200") + countRequests m p ((sys, r) :: rest)
        ≤ serveAll (serve sys c r).1 rest (m, p, "200")
      by_cases h : r.method = m ∧ r.path = p
      · have hcount : countRequests m p ((sys, r) :: rest) = countRequests m p rest + 1 := by
          simp [countRequests, List.filter, h.1, h.2]
        have hinc : (serve sys c r).1 (m, p, "200") = c (m, p, "200") + 1 := by
          rw [serve_counter, if_pos (hc r h.1 h.2)]
          simp [Counter.inc, h.1, h.2]
        omega
      · have hcount : countRequests m p ((sys, r) :: rest) = countRequests m p rest := by
          have : (decide (r.method = m) && decide (r.path = p)) = false := by
            by_cases h1 : r.method = m
            · have h2 : ¬ r.path = p := fun h2 => h ⟨h1, h2⟩
              simp [h1, h2]
            · simp [h1]
          simp [countRequests, List.filter, this]
        have hmono := serve_counter_mono sys c r (m, p, "200")
        omega

theorem serveAll_support (reqs : List (Sys × Request)) (c : Counter) (k : Labels)
    (hk : k ≠ ("GET", "/", "200")) (hk2 : k ≠ ("GET", "/version", "200")) :
    serveAll c reqs k = c k := by
  induction reqs generalizing c with
  | nil => rfl
  | cons sr rest ih =>
      obtain ⟨sys, r⟩ := sr
      show serveAll (serve sys c r).1 rest k = c k
      rw [ih, serve_counter]
      split
      · rename_i h
        obtain ⟨hm, hp⟩ := h
        have hne : k ≠ (r.method, r.path, "200") := by
          rcases hp with hp | hp
          · rw [hm, hp]; exact hk
          · rw [hm, hp]; exact hk2
        simp [Counter.inc, hne]
      · rfl

theorem getEnvOrDefault_eq (env : Env) (key d : String) :
    getEnvOrDefault env key d = valueIfNonEmptyElse env key d := by
  unfold getEnvOrDefault valueIfNonEmptyElse Getenv
  cases h : env key with
  | none => simp
  | some v => by_cases hv : v = "" <;> simp [hv]

theorem serve_health (sys : Sys) (c : Counter) (r : Request) (hm : r.method = "GET")
    (hp : r.path = "/healthz" ∨ r.path = "/readyz") :
    (serve sys c r).2 = some (healthHandler sys r ⟨c, ResponseWriter.fresh⟩).conn.w := by
  unfold serve
  rw [dispatch_eq_handlerFor]
  unfold specHandlerFor
  rcases hp with hp | hp <;> simp [hm, hp, healthHandler]

theorem serve_version (sys : Sys) (c : Counter) (r : Request) (hm : r.method = "GET")
    (hp : r.path = "/version") :
    (serve sys c r).2 = some (versionHandler sys r ⟨c, ResponseWriter.fresh⟩).conn.w := by
  unfold serve
  rw [dispatch_eq_handlerFor]
  unfold specHandlerFor
  simp [hm, hp, metricsMiddleware, versionHandler]

theorem serve_home (sys : Sys) (c : Counter) (r : Request) (hm : r.method = "GET")
    (hp : r.path = "/") :
    (serve sys c r).2 = some (homeHandler sys r ⟨c, ResponseWriter.fresh⟩).conn.w := by
  unfold serve
  rw [dispatch_eq_handlerFor]
  unfold specHandlerFor
  simp [hm, hp, metricsMiddleware, homeHandler]

theorem health_render : (healthJObj "ok").render = "\x7b\"status\":\"ok\"\x7d" := by
  decide

theorem version_render :
    JObj.render [("version", .str version)] = "\x7b\"version\":\"1.1.1\"\x7d" := by
  decide

/-! ## C1: health and readiness -/

/-- C1 as stated fails: the body written for `GET /healthz` is the JSON text
followed by the newline that `Encode` appends, so no response with exactly the
body `{"status":"ok"}` is produced; and a `POST` to `/healthz` gets no response
from the handler at all. -/
theorem health_body_exact_fails :
    (¬ ∃ w, (serve (sysOf []) Counter.zero (req "GET" "/healthz")).2 = some w ∧
          w.statusCode = 200 ∧ w.body = "\x7b\"status\":\"ok\"\x7d") ∧
    (serve (sysOf []) Counter.zero (req "POST" "/healthz")).2 = none := by
  constructor
  · rintro ⟨w, hw, -, hb⟩
    have hs : (serve (sysOf []) Counter.zero (req "GET" "/healthz")).2
        = some (healthHandler (sysOf []) (req "GET" "/healthz")
            ⟨Counter.zero, ResponseWriter.fresh⟩).conn.w :=
      serve_health _ _ _ rfl (Or.inl rfl)
    rw [hs] at hw
    cases hw
    revert hb
    decide
  · unfold serve
    rw [dispatch_eq_handlerFor]
    rfl

/-- C1 (amended): for every `GET` request to `/healthz` or `/readyz`, whatever
its query string and headers, in every environment and counter state, the
response has status 200, content type `application/json`, and its body is
exactly `{"status":"ok"}` followed by one newline. -/
theorem health_response (sys : Sys) (c : Counter) (r : Request) (hm : r.method = "GET")
    (hp : r.path = "/healthz" ∨ r.path = "/readyz") :
    ∃ w, (serve sys c r).2 = some w ∧ w.statusCode = 200 ∧
      w.body = "\x7b\"status\":\"ok\"\x7d\n" ∧
      w.header = [("Content-Type", "application/json")] := by
  refine ⟨_, serve_health sys c r hm hp, ?_, ?_, ?_⟩
  · rfl
  · show "" ++ ((healthJObj "ok").render ++ "\n") = _
    rw [health_render]
    decide
  · rfl

theorem health_response_witness :
    ∃ w, (serve (sysOf [("COLOR", "red")]) (Counter.zero.inc ("GET", "/", "200"))
            { method := "GET", path := "/readyz", rawQuery := "verbose=1",
              header := [("Accept", "text/html")] }).2 = some w ∧
      w.statusCode = 200 ∧ w.body = "\x7b\"status\":\"ok\"\x7d\n" ∧
      w.header = [("Content-Type", "application/json")] :=
  health_response _ _ _ rfl (Or.inr rfl)

/-! ## C5: version -/

/-- C5 as stated fails: the body written for `GET /version` ends in the newline
that `Encode` appends, so it is not the text `{"version":"1.1.1"}`; and a
`POST` to `/version` gets no response from the handler. -/
theorem version_body_exact_fails :
    (¬ ∃ w, (serve (sysOf []) Counter.zero (req "GET" "/version")).2 = some w ∧
          w.statusCode = 200 ∧ w.body = "\x7b\"version\":\"1.1.1\"\x7d") ∧
    (serve (sysOf []) Counter.zero (req "POST" "/version")).2 = none := by
  constructor
  · rintro ⟨w, hw, -, hb⟩
    have hs := serve_version (sysOf []) Counter.zero (req "GET" "/version") rfl rfl
    rw [hs] at hw
    cases hw
    revert hb
    decide
  · unfold serve
    rw [dispatch_eq_handlerFor]
    rfl

/-- C5 (amended): for every `GET` request to `/version`, in every environment,
the response has status 200 and its body is `{"version":"1.1.1"}` followed by
one newline: the encoding of the JSON object whose single key `version` holds
the version constant. -/
theorem version_response (sys : Sys) (c : Counter) (r : Request) (hm : r.method = "GET")
    (hp : r.path = "/version") :
    ∃ w, (serve sys c r).2 = some w ∧ w.statusCode = 200 ∧
      w.body = "\x7b\"version\":\"1.1.1\"\x7d\n" ∧
      w.body = JObj.render [("version", .str version)] ++ "\n" ∧
      version = "1.1.1" := by
  refine ⟨_, serve_version sys c r hm hp, ?_, ?_, ?_, ?_⟩
  · rfl
  · show "" ++ (JObj.render [("version", .str version)] ++ "\n") = _
    rw [version_render]
    decide
  · simp [versionHandler, encodeTo, ResponseWriter.write, ResponseWriter.setHeader,
      ResponseWriter.fresh]
  · rfl

theorem version_response_witness :
    ∃ w, (serve (sysOf [("REVISION", "abc123")]) Counter.zero
            { method := "GET", path := "/version", rawQuery := "x=1", header := [] }).2 = some w ∧
      w.statusCode = 200 ∧ w.body = "\x7b\"version\":\"1.1.1\"\x7d\n" ∧
      w.body = JObj.render [("version", .str version)] ++ "\n" ∧
      version = "1.1.1" :=
  version_response _ _ _ rfl rfl

/-! ## C2: the counting middleware -/

/-- C2 as stated fails for three kinds of `next`.  A handler that touches the
counter itself: with `next` the already wrapped `metricsMiddleware
versionHandler`, one run on `GET /version` from the all-zero counter leaves 2
at `("GET", "/version", "200")`, not 0 + 1.  A handler that panics: nothing is
counted.  A handler that assigns to `r.URL.Path`: the increment goes to the
new path, not to the path the request came with. -/
theorem middleware_any_next_fails :
    ¬ ((metricsMiddleware (metricsMiddleware versionHandler) (sysOf []) (req "GET" "/version")
          ⟨Counter.zero, ResponseWriter.fresh⟩).conn.counter
        = Counter.zero.inc ((req "GET" "/version").method, (req "GET" "/version").path, "200")) ∧
    ¬ ((metricsMiddleware panicHandler (sysOf []) (req "GET" "/version")
          ⟨Counter.zero, ResponseWriter.fresh⟩).conn.counter
        = Counter.zero.inc ((req "GET" "/version").method, (req "GET" "/version").path, "200")) ∧
    ¬ ((metricsMiddleware rewriteHandler (sysOf []) (req "GET" "/version")
          ⟨Counter.zero, ResponseWriter.fresh⟩).conn.counter
        = Counter.zero.inc ((req "GET" "/version").method, (req "GET" "/version").path, "200")) := by
  refine ⟨?_, ?_, ?_⟩ <;>
  · intro h
    have h2 := congrFun h ("GET", "/version", "200")
    revert h2
    decide

/-- C2 (amended): for every handler `next`, request and state.  When `next`
returns, the counter left by `metricsMiddleware next` is the counter left by
`next` with the entry for `(r.Method, r.URL.Path, "200")`, method and path
read from the request as `next` left it, increased by exactly 1 and every
other entry unchanged, whatever status `next` wrote; so it is the starting
counter with the entry for the incoming method and path increased by 1
whenever `next` changed neither the counter nor the request.  When `next` does
not return (it panics), nothing is added and the call does not return either.
In both cases the response and the request are as `next` left them.  The
handlers `homeHandler` and `versionHandler` return and change neither counter
nor request. -/
theorem middleware_counter (next : HandlerFunc) (sys : Sys) (r : Request) (st : Conn) :
    ((next sys r st).returned = true →
      ∀ k : Labels, (metricsMiddleware next sys r st).conn.counter k =
        if k = ((next sys r st).req.method, (next sys r st).req.path, "200")
        then (next sys r st).conn.counter k + 1
        else (next sys r st).conn.counter k) ∧
    ((next sys r st).returned = true → (next sys r st).conn.counter = st.counter →
      (next sys r st).req = r →
      ∀ k : Labels, (metricsMiddleware next sys r st).conn.counter k =
        if k = (r.method, r.path, "200") then st.counter k + 1 else st.counter k) ∧
    ((next sys r st).returned = false →
      metricsMiddleware next sys r st = next sys r st) ∧
    (metricsMiddleware next sys r st).conn.w = (next sys r st).conn.w ∧
    (metricsMiddleware next sys r st).req = (next sys r st).req ∧
    (metricsMiddleware next sys r st).returned = (next sys r st).returned ∧
    ((homeHandler sys r st).returned = true ∧ (homeHandler sys r st).conn.counter = st.counter ∧
      (homeHandler sys r st).req = r) ∧
    ((versionHandler sys r st).returned = true ∧
      (versionHandler sys r st).conn.counter = st.counter ∧
      (versionHandler sys r st).req = r) := by
  have hstep : (next sys r st).returned = true →
      ∀ k : Labels, (metricsMiddleware next sys r st).conn.counter k =
        if k = ((next sys r st).req.method, (next sys r st).req.path, "200")
        then (next sys r st).conn.counter k + 1
        else (next sys r st).conn.counter k := by
    intro hret k
    simp [metricsMiddleware, hret, Counter.inc]
  refine ⟨hstep, ?_, ?_, ?_, ?_, ?_, ⟨rfl, rfl, rfl⟩, ⟨rfl, rfl, rfl⟩⟩
  · intro hret hc hr k
    rw [hstep hret k, hc, hr]
  · intro hret
    simp [metricsMiddleware, hret]
  · unfold metricsMiddleware
    cases h : (next sys r st).returned <;> simp [h]
  · unfold metricsMiddleware
    cases h : (next sys r st).returned <;> simp [h]
  · unfold metricsMiddleware
    cases h : (next sys r st).returned <;> simp [h]

theorem middleware_counter_witness :
    (∀ k : Labels,
      (metricsMiddleware versionHandler (sysOf []) (req "GET" "/version")
          ⟨Counter.zero.inc ("GET", "/", "200"), ResponseWriter.fresh⟩).conn.counter k =
        if k = ((req "GET" "/version").method, (req "GET" "/version").path, "200")
        then (Counter.zero.inc ("GET", "/", "200")) k + 1
        else (Counter.zero.inc ("GET", "/", "200")) k) ∧
    (∀ k : Labels,
      (metricsMiddleware rewriteHandler (sysOf []) (req "GET" "/version")
          ⟨Counter.zero, ResponseWriter.fresh⟩).conn.counter k =
        if k = ("GET", "/rewritten", "200") then Counter.zero k + 1 else Counter.zero k) ∧
    metricsMiddleware panicHandler (sysOf []) (req "GET" "/version")
        ⟨Counter.zero, ResponseWriter.fresh⟩
      = panicHandler (sysOf []) (req "GET" "/version") ⟨Counter.zero, ResponseWriter.fresh⟩ :=
  ⟨(middleware_counter versionHandler (sysOf []) (req "GET" "/version")
      ⟨Counter.zero.inc ("GET", "/", "200"), ResponseWriter.fresh⟩).2.1 rfl rfl rfl,
   (middleware_counter rewriteHandler (sysOf []) (req "GET" "/version")
      ⟨Counter.zero, ResponseWriter.fresh⟩).1 rfl,
   (middleware_counter panicHandler (sysOf []) (req "GET" "/version")
      ⟨Counter.zero, ResponseWriter.fresh⟩).2.2.1 rfl⟩

/-! ## C9: getEnvOrDefault -/

/-- C9 as stated fails when the default is empty: with the variable set to the
empty string and default `""` the function returns `""`, which is the
variable's value, although that value is empty. -/
theorem getEnvOrDefault_iff_fails :
    envOf [("K", "")] "K" = some "" ∧
    ¬ (getEnvOrDefault (envOf [("K", "")]) "K" "" = "" ↔ ("" : String) ≠ "") := by
  decide

/-- C9 (amended): `getEnvOrDefault` returns the variable's value whenever that
value is a non-empty string and returns the default both when the variable is
unset and when it is set to the empty string; when the default is non-empty,
it returns the variable's value if and only if that value is non-empty, and
the result is never empty. -/
theorem getEnvOrDefault_spec (env : Env) (key d : String) :
    (∀ v, env key = some v → v ≠ "" → getEnvOrDefault env key d = v) ∧
    (env key = none → getEnvOrDefault env key d = d) ∧
    (env key = some "" → getEnvOrDefault env key d = d) ∧
    (d ≠ "" → ∀ v, env key = some v → (getEnvOrDefault env key d = v ↔ v ≠ "")) ∧
    (d ≠ "" → getEnvOrDefault env key d ≠ "") := by
  rw [getEnvOrDefault_eq]
  unfold valueIfNonEmptyElse
  refine ⟨?_, ?_, ?_, ?_, ?_⟩
  · intro v hv hne
    simp [hv, hne]
  · intro h
    simp [h]
  · intro h
    simp [h]
  · intro hd v hv
    rw [hv]
    by_cases hne : v = ""
    · simp [hne, hd]
    · simp [hne]
  · intro hd
    cases h : env key with
    | none => simpa using hd
    | some v =>
        by_cases hne : v = ""
        · simp [hne, hd]
        · simp [hne]

theorem getEnvOrDefault_spec_witness :
    getEnvOrDefault (envOf [("COLOR", "#ff0000")]) "COLOR" "#34577c" = "#ff0000" ∧
    getEnvOrDefault (envOf []) "COLOR" "#34577c" = "#34577c" ∧
    getEnvOrDefault (envOf [("COLOR", "")]) "COLOR" "#34577c" = "#34577c" ∧
    (getEnvOrDefault (envOf [("COLOR", "")]) "COLOR" "#34577c" = "" ↔ ("" : String) ≠ "") ∧
    getEnvOrDefault (envOf [("COLOR", "")]) "COLOR" "#34577c" ≠ "" :=
  ⟨(getEnvOrDefault_spec (envOf [("COLOR", "#ff0000")]) "COLOR" "#34577c").1 "#ff0000"
      (by decide) (by decide),
   (getEnvOrDefault_spec (envOf []) "COLOR" "#34577c").2.1 (by decide),
   (getEnvOrDefault_spec (envOf [("COLOR", "")]) "COLOR" "#34577c").2.2.1 (by decide),
   (getEnvOrDefault_spec (envOf [("COLOR", "")]) "COLOR" "#34577c").2.2.2.1 (by decide) ""
      (by decide),
   (getEnvOrDefault_spec (envOf [("COLOR", "")]) "COLOR" "#34577c").2.2.2.2 (by decide)⟩

/-! ## C7: listen port -/

/-- C7 as stated fails when `PORT` is set to the empty string: the variable is
set, its value is `""`, and the port is `9898`. -/
theorem listenPort_set_empty_fails :
    envOf [("PORT", "")] "PORT" = some "" ∧
    ¬ (listenPort (envOf [("PORT", "")]) = valueIfSetElse (envOf [("PORT", "")]) "PORT" "9898") := by
  decide

/-- C7 (amended): the port is the value of `PORT` when `PORT` is set to a
non-empty string and `9898` when `PORT` is omitted or empty; the listen
address is a colon followed by the port, so `PORT=8080` gives `:8080` and an
omitted `PORT` gives `:9898`. -/
theorem listenPort_spec (env : Env) :
    listenPort env = valueIfNonEmptyElse env "PORT" "9898" ∧
    listenAddr env = ":" ++ listenPort env ∧
    (∀ v, env "PORT" = some v → v ≠ "" → listenPort env = v) ∧
    (env "PORT" = none → listenPort env = "9898") ∧
    (env "PORT" = some "8080" → listenAddr env = ":8080") ∧
    (env "PORT" = none → listenAddr env = ":9898") := by
  have hport : listenPort env = valueIfNonEmptyElse env "PORT" "9898" := by
    unfold listenPort valueIfNonEmptyElse Getenv
    cases h : env "PORT" with
    | none => simp
    | some v => by_cases hv : v = "" <;> simp [hv]
  refine ⟨hport, rfl, ?_, ?_, ?_, ?_⟩
  · intro v hv hne
    rw [hport]
    simp [valueIfNonEmptyElse, hv, hne]
  · intro h
    rw [hport]
    simp [valueIfNonEmptyElse, h]
  · intro h
    unfold listenAddr
    rw [hport]
    simp only [valueIfNonEmptyElse, h]
    decide
  · intro h
    unfold listenAddr
    rw [hport]
    simp only [valueIfNonEmptyElse, h]
    decide

theorem listenPort_spec_witness :
    listenPort (envOf [("PORT", "8080")]) = "8080" ∧
    listenAddr (envOf [("PORT", "8080")]) = ":8080" ∧
    listenPort (envOf []) = "9898" ∧
    listenAddr (envOf []) = ":9898" :=
  ⟨(listenPort_spec (envOf [("PORT", "8080")])).2.2.1 "8080" (by decide) (by decide),
   (listenPort_spec (envOf [("PORT", "8080")])).2.2.2.2.1 (by decide),
   (listenPort_spec (envOf [])).2.2.2.1 (by decide),
   (listenPort_spec (envOf [])).2.2.2.2.2 (by decide)⟩

/-! ## C3: the identity snapshot -/

theorem homeHandler_body (sys : Sys) (r : Request) (st : Conn) :
    (homeHandler sys r st).conn.w.body = st.w.body ++ ((homeResponse sys).toJObj.render ++ "\n") :=
  rfl

theorem home_render_split (p : Response) :
    ∃ pre post, p.toJObj.render = pre ++ revisionColorText p.Revision p.Color ++ post := by
  refine ⟨"\x7b" ++ (jsonQuote "hostname" ++ ":" ++ jsonQuote p.Hostname ++ "," ++
      (jsonQuote "version" ++ ":" ++ jsonQuote p.Version) ++ ","),
      "," ++ (jsonQuote "message" ++ ":" ++ jsonQuote p.Message) ++ "," ++
      (jsonQuote "runtime" ++ ":" ++ jsonQuote p.Runtime) ++ "," ++
      (jsonQuote "uptime" ++ ":" ++ jsonQuote p.Uptime) ++ "," ++
      (jsonQuote "env" ++ ":" ++ (JVal.strMap p.Env).render) ++ "\x7d", ?_⟩
  simp only [JObj.render, renderMembers, String.intercalate, String.intercalate.go,
    Response.toJObj, List.map, revisionColorText, String.append_assoc]
  rfl

/-- C3 as stated fails when `COLOR` or `ENVIRONMENT` is set to the empty
string: the variable is set, its value is `""`, and the JSON written has color
`#34577c` and `env.ENVIRONMENT` `unknown`. -/
theorem home_color_set_empty_fails :
    envOf [("COLOR", ""), ("ENVIRONMENT", "")] "COLOR" = some "" ∧
    envOf [("COLOR", ""), ("ENVIRONMENT", "")] "ENVIRONMENT" = some "" ∧
    ¬ ((homeResponse (sysOf [("COLOR", ""), ("ENVIRONMENT", "")])).toJObj.get "color"
        = some (.str (valueIfSetElse (sysOf [("COLOR", ""), ("ENVIRONMENT", "")]).env
            "COLOR" "#34577c"))) ∧
    ¬ ((homeResponse (sysOf [("COLOR", ""), ("ENVIRONMENT", "")])).toJObj.getEnv "ENVIRONMENT"
        = some (valueIfSetElse (sysOf [("COLOR", ""), ("ENVIRONMENT", "")]).env
            "ENVIRONMENT" "unknown")) := by
  decide

/-- C3 (amended): the JSON written by `homeHandler` has color equal to the value
of `COLOR` if `COLOR` is set to a non-empty string and `#34577c` otherwise,
revision equal to the value of `REVISION` if set and the empty string
otherwise, and `env.ENVIRONMENT` equal to the value of `ENVIRONMENT` if set to
a non-empty string and `unknown` otherwise; with `COLOR=#ff0000` and
`REVISION=abc123` the response text contains `"revision":"abc123","color":"#ff0000"`. -/
theorem home_fields (sys : Sys) (c : Counter) (r : Request) (hm : r.method = "GET")
    (hp : r.path = "/") :
    ∃ w, (serve sys c r).2 = some w ∧ w.statusCode = 200 ∧
      w.body = (homeResponse sys).toJObj.render ++ "\n" ∧
      (homeResponse sys).toJObj.get "color"
        = some (.str (valueIfNonEmptyElse sys.env "COLOR" "#34577c")) ∧
      (homeResponse sys).toJObj.get "revision"
        = some (.str (valueIfSetElse sys.env "REVISION" "")) ∧
      (homeResponse sys).toJObj.getEnv "ENVIRONMENT"
        = some (valueIfNonEmptyElse sys.env "ENVIRONMENT" "unknown") ∧
      (sys.env "COLOR" = some "#ff0000" → sys.env "REVISION" = some "abc123" →
        (homeResponse sys).toJObj.get "color" = some (.str "#ff0000") ∧
        (homeResponse sys).toJObj.get "revision" = some (.str "abc123") ∧
        ∃ pre post, w.body = pre ++ "\"revision\":\"abc123\",\"color\":\"#ff0000\"" ++ post) := by
  have hbody : (homeHandler sys r ⟨c, ResponseWriter.fresh⟩).conn.w.body
      = (homeResponse sys).toJObj.render ++ "\n" := by
    rw [homeHandler_body]
    show "" ++ _ = _
    simp
  have hrev : Getenv sys.env "REVISION" = valueIfSetElse sys.env "REVISION" "" := by
    unfold Getenv valueIfSetElse
    cases sys.env "REVISION" <;> rfl
  refine ⟨_, serve_home sys c r hm hp, rfl, hbody, ?_, ?_, ?_, ?_⟩
  · simp [JObj.get, Response.toJObj, homeResponse, List.find?, getEnvOrDefault_eq]
  · simp [JObj.get, Response.toJObj, homeResponse, List.find?, hrev]
  · simp [JObj.getEnv, JObj.get, Response.toJObj, homeResponse, List.find?, getEnvOrDefault_eq]
  · intro hc hr
    have hcol : (homeResponse sys).Color = "#ff0000" := by
      simp [homeResponse, getEnvOrDefault_eq, valueIfNonEmptyElse, hc]
    have hrv : (homeResponse sys).Revision = "abc123" := by
      simp [homeResponse, Getenv, hr]
    refine ⟨?_, ?_, ?_⟩
    · simp [JObj.get, Response.toJObj, List.find?, hcol]
    · simp [JObj.get, Response.toJObj, List.find?, hrv]
    · obtain ⟨pre, post, hsplit⟩ := home_render_split (homeResponse sys)
      refine ⟨pre, post ++ "\n", ?_⟩
      rw [hbody, hsplit, hcol, hrv]
      have : revisionColorText "abc123" "#ff0000"
          = "\"revision\":\"abc123\",\"color\":\"#ff0000\"" := by decide
      rw [this]
      simp only [String.append_assoc]

set_option maxRecDepth 100000 in
theorem home_fields_witness :
    ∃ w, (serve (sysOf [("COLOR", "#ff0000"), ("REVISION", "abc123")]) Counter.zero
            (req "GET" "/")).2 = some w ∧
      w.body = "\x7b\"hostname\":\"pod-0\",\"version\":\"1.1.1\",\"revision\":\"abc123\",\"color\":\"#ff0000\",\"message\":\"Testing metrics-based canary deployment v1.1.1 with traffic\",\"runtime\":\"go1.22.0 linux/amd64\",\"uptime\":\"1m0s\",\"env\":\x7b\"ENVIRONMENT\":\"unknown\",\"LOG_LEVEL\":\"info\"\x7d\x7d\n" := by
  obtain ⟨w, hw, -, hb, -⟩ := home_fields (sysOf [("COLOR", "#ff0000"), ("REVISION", "abc123")])
    Counter.zero (req "GET" "/") rfl rfl
  refine ⟨w, hw, ?_⟩
  rw [hb]
  decide

/-! ## C4: counts of served requests -/

/-- C4: after any sequence of requests served from the all-zero counter, the
count of `(GET, /, 200)` is at least the number of `GET /` requests in the
sequence and the count of `(GET, /version, 200)` at least the number of
`GET /version` requests, whatever else is interleaved; and no label triple
ever loses count when the sequence is continued. -/
theorem counts_at_least (reqs : List (Sys × Request)) :
    countRequests "GET" "/" reqs ≤ serveAll Counter.zero reqs ("GET", "/", "200") ∧
    countRequests "GET" "/version" reqs ≤ serveAll Counter.zero reqs ("GET", "/version", "200") ∧
    (∀ (pre post : List (Sys × Request)) (k : Labels),
        serveAll Counter.zero pre k ≤ serveAll Counter.zero (pre ++ post) k) := by
  refine ⟨?_, ?_, ?_⟩
  · have h := serveAll_count "GET" "/" (fun r hm hp => ⟨hm, Or.inl hp⟩) reqs Counter.zero
    simpa [Counter.zero] using h
  · have h := serveAll_count "GET" "/version" (fun r hm hp => ⟨hm, Or.inr hp⟩) reqs Counter.zero
    simpa [Counter.zero] using h
  · intro pre post k
    rw [serveAll_append]
    exact serveAll_mono post _ k

/-! ## C6: routes without instrumentation -/

/-- C6: serving a request to `/healthz`, `/readyz` or `/metrics` leaves every
entry of the request counter unchanged; a request changes the counter only if
its path is `/` or `/version`, the two routes wrapped by the middleware. -/
theorem uninstrumented_routes (sys : Sys) (c : Counter) (r : Request)
    (hp : r.path = "/healthz" ∨ r.path = "/readyz" ∨ r.path = "/metrics") :
    (∀ k : Labels, (serve sys c r).1 k = c k) ∧
    (∀ (sys2 : Sys) (c2 : Counter) (r2 : Request),
        (serve sys2 c2 r2).1 ≠ c2 → r2.path = "/" ∨ r2.path = "/version") := by
  constructor
  · intro k
    rw [serve_counter]
    have hn : ¬ counted r := by
      rintro ⟨-, h | h⟩ <;> rcases hp with hp | hp | hp <;> rw [hp] at h <;> revert h <;> decide
    rw [if_neg hn]
  · intro sys2 c2 r2 hne
    rw [serve_counter] at hne
    by_cases hc : counted r2
    · exact hc.2
    · rw [if_neg hc] at hne
      exact absurd rfl hne

theorem uninstrumented_routes_witness :
    (∀ k : Labels, (serve (sysOf []) (Counter.zero.inc ("GET", "/", "200"))
        (req "GET" "/metrics")).1 k = (Counter.zero.inc ("GET", "/", "200")) k) ∧
    (∀ k : Labels, (serve (sysOf []) Counter.zero (req "GET" "/healthz")).1 k = Counter.zero k) ∧
    (∀ k : Labels, (serve (sysOf []) Counter.zero (req "GET" "/readyz")).1 k = Counter.zero k) :=
  ⟨(uninstrumented_routes (sysOf []) (Counter.zero.inc ("GET", "/", "200"))
      (req "GET" "/metrics") (Or.inr (Or.inr rfl))).1,
   (uninstrumented_routes (sysOf []) Counter.zero (req "GET" "/healthz") (Or.inl rfl)).1,
   (uninstrumented_routes (sysOf []) Counter.zero (req "GET" "/readyz") (Or.inr (Or.inl rfl))).1⟩

/-! ## C8: the route table -/

/-- C8: `main` registers exactly five routes, each for method `GET` only, with
paths `/metrics`, `/`, `/healthz`, `/readyz`, `/version`; a request reaches a
handler exactly when its method is `GET` and its path is one of these five,
and then the handler is `promhttp`, the wrapped `homeHandler`, `healthHandler`,
`healthHandler` and the wrapped `versionHandler` respectively; any other
method and path reaches no handler. -/
theorem route_table (r : Request) :
    routes.length = 5 ∧
    routes.map (fun rt => (rt.path, rt.methods)) =
      [("/metrics", ["GET"]), ("/", ["GET"]), ("/healthz", ["GET"]), ("/readyz", ["GET"]),
       ("/version", ["GET"])] ∧
    ((dispatch r).isSome ↔
      (r.method = "GET" ∧ r.path ∈ ["/metrics", "/", "/healthz", "/readyz", "/version"])) ∧
    dispatch r = specHandlerFor r ∧
    (dispatch r = none → (∀ sys c, serve sys c r = (c, none))) := by
  refine ⟨rfl, rfl, ?_, dispatch_eq_handlerFor r, ?_⟩
  · rw [dispatch_eq_handlerFor]
    unfold specHandlerFor
    by_cases hm : r.method = "GET"
    · by_cases h1 : r.path = "/metrics"
      · simp [hm, h1]
      · by_cases h2 : r.path = "/"
        · simp [hm, h2]
        · by_cases h3 : r.path = "/healthz"
          · simp [hm, h3]
          · by_cases h4 : r.path = "/readyz"
            · simp [hm, h4]
            · by_cases h5 : r.path = "/version"
              · simp [hm, h5]
              · simp [hm, h1, h2, h3, h4, h5]
    · simp [hm]
  · intro h sys c
    unfold serve
    rw [h]

theorem route_table_witness :
    (dispatch (req "GET" "/healthz")).isSome ∧
    dispatch (req "POST" "/") = none ∧
    dispatch (req "GET" "/version/") = none ∧
    (∀ sys c, serve sys c (req "GET" "/other") = (c, none)) :=
  ⟨(route_table (req "GET" "/healthz")).2.2.1.2 ⟨rfl, by decide⟩,
   by rw [(route_table (req "POST" "/")).2.2.2.1]; rfl,
   by rw [(route_table (req "GET" "/version/")).2.2.2.1]; rfl,
   (route_table (req "GET" "/other")).2.2.2.2
     (by rw [(route_table (req "GET" "/other")).2.2.2.1]; rfl)⟩

/-! ## C10: bounded label set -/

/-- C10: in every state reached from the all-zero counter by serving requests
through the route table, a label triple with a non-zero count is
`(GET, /, 200)` or `(GET, /version, 200)`. -/
theorem label_set_bounded (reqs : List (Sys × Request)) (k : Labels)
    (hk : serveAll Counter.zero reqs k ≠ 0) :
    k = ("GET", "/", "200") ∨ k = ("GET", "/version", "200") := by
  by_cases h1 : k = ("GET", "/", "200")
  · exact Or.inl h1
  · by_cases h2 : k = ("GET", "/version", "200")
    · exact Or.inr h2
    · exact absurd (serveAll_support reqs Counter.zero k h1 h2) hk

theorem label_set_bounded_witness :
    serveAll Counter.zero sampleRequests ("GET", "/version", "200") ≠ 0 ∧
    ((("GET", "/version", "200") : Labels) = ("GET", "/", "200") ∨
      (("GET", "/version", "200") : Labels) = ("GET", "/version", "200")) :=
  ⟨by decide, label_set_bounded sampleRequests ("GET", "/version", "200") (by decide)⟩

end CanaryDeployment
